import Mathlib

/-!
Shallow embedding of `scripts/rollup/modules.js`: the per-bundle-variant
module resolution policy (module map builder, external classifier, alias
resolver, replacement planner).

JavaScript objects used by the source are string-keyed maps with
insertion-order iteration and in-place overwrite on re-assignment; they are
modelled as association lists (`Obj`) with a `set` operation that updates an
existing key in place and otherwise appends.  `Object.assign(t, s₁, s₂, …)`
is modelled by folding `set` over each source in order; a source that is
`undefined` (a fall-through `switch` with no matching case) is modelled as
`Option Obj` and skipped by `Obj.assignOpt`, matching `Object.assign`'s
treatment of `undefined` sources.
-/

namespace RollupModules

/-- A JavaScript object with string keys and string values: an ordered
association list, first binding of a key wins on lookup (there is at most one
binding per key for objects built by `Obj.set`). -/
abbrev Obj := List (String × String)

/-- JS property write `o[k] = v`: overwrite in place if the key exists,
otherwise append at the end (insertion order). -/
def Obj.set : Obj → String → String → Obj
  | [], k, v => [(k, v)]
  | (k0, v0) :: rest, k, v =>
    if k0 = k then (k, v) :: rest else (k0, v0) :: Obj.set rest k v

/-- JS property read `o[k]`: first binding of the key, if any. -/
def Obj.get? : Obj → String → Option String
  | [], _ => none
  | (k0, v0) :: rest, k => if k0 = k then some v0 else Obj.get? rest k

/-- JS `delete o[k]`: remove the binding of the key, if any. -/
def Obj.delete : Obj → String → Obj
  | [], _ => []
  | (k0, v0) :: rest, k =>
    if k0 = k then Obj.delete rest k else (k0, v0) :: Obj.delete rest k

/-- `Object.assign(t, s)`: copy every binding of `s` into `t`, in order,
later bindings overriding earlier ones. -/
def Obj.assign (t s : Obj) : Obj :=
  s.foldl (fun a p => Obj.set a p.1 p.2) t

/-- `Object.assign(t, s)` where `s` may be `undefined` (a switch that fell
through): `undefined` sources are skipped. -/
def Obj.assignOpt (t : Obj) (s : Option Obj) : Obj :=
  match s with
  | none => t
  | some o => Obj.assign t o

/-- A JavaScript value passed where an array is expected; `Array.isArray`
distinguishes real arrays from everything else. -/
inductive JSArg where
  | undefined
  | null
  | num (n : Int)
  | str (s : String)
  | arr (xs : List String)
deriving DecidableEq

def JSArg.isArray : JSArg → Bool
  | .arr _ => true
  | _ => false

/-- The working directory of the build process, against which
`path.resolve` resolves relative paths. -/
def cwd : String := "/react"

/-- Node's `path.resolve` for the inputs occurring in the source: every
argument is either absolute or starts with `./` and contains no other `.` or
`..` segments, so resolution is prefixing the working directory. -/
def resolve (p : String) : String :=
  match p.data with
  | '/' :: _ => p
  | '.' :: '/' :: rest => cwd ++ "/" ++ String.mk rest
  | _ => cwd ++ "/" ++ p

/-- Node's `path.basename(file, ext)`: the last path component, with `ext`
stripped when it is a proper suffix. -/
def basename (file ext : String) : String :=
  let base := (file.splitOn "/").getLastD ""
  if base.endsWith ext ∧ base ≠ ext then base.dropRight ext.length else base

/-- A single-quote character, used because the replacement planner's keys
and values are quoted literal source text. -/
def quoted (s : String) : String := "\x27" ++ s ++ "\x27"

/-! ### The variant registry

Modelled from the spec: the variant registry (`scripts/rollup/bundles.js`,
an external collaborator not under `src/`) supplies the closed enumerations
of BundleVariant (`bundleTypes`) and ModuleRole (`moduleTypes`) values; each
is a distinct string token compared with `===` in the source's `switch` and
`if` statements. -/

def UMD_DEV : String := "UMD_DEV"
def UMD_PROD : String := "UMD_PROD"
def NODE_DEV : String := "NODE_DEV"
def NODE_PROD : String := "NODE_PROD"
def FB_DEV : String := "FB_DEV"
def FB_PROD : String := "FB_PROD"
def RN_DEV : String := "RN_DEV"
def RN_PROD : String := "RN_PROD"

def ISOMORPHIC : String := "ISOMORPHIC"
def RENDERER : String := "RENDERER"

/-- The eight recognized bundle types, in declaration order. -/
def allBundleTypes : List String :=
  [UMD_DEV, UMD_PROD, NODE_DEV, NODE_PROD, FB_DEV, FB_PROD, RN_DEV, RN_PROD]

/-! ### Fixed module lists (`modules.js` lines 32-65) -/

/-- The FBJS modules that are used throughout the bundles. -/
def fbjsModules : List String :=
  [ "fbjs/lib/warning",
    "fbjs/lib/invariant",
    "fbjs/lib/emptyFunction",
    "fbjs/lib/emptyObject",
    "fbjs/lib/hyphenateStyleName",
    "fbjs/lib/getUnboundedScrollPosition",
    "fbjs/lib/camelizeStyleName",
    "fbjs/lib/containsNode",
    "fbjs/lib/shallowEqual",
    "fbjs/lib/getActiveElement",
    "fbjs/lib/focusNode",
    "fbjs/lib/EventListener",
    "fbjs/lib/memoizeStringOnly",
    "fbjs/lib/ExecutionEnvironment",
    "fbjs/lib/createNodesFromMarkup",
    "fbjs/lib/performanceNow" ]

/-- Dev-only modules stubbed out of production bundles.  The entries are
quoted literal references, exactly as in the source. -/
def devOnlyFilesToStubOut : List String :=
  [ quoted "ReactDebugCurrentFrame",
    quoted "ReactComponentTreeHook",
    quoted "ReactPerf",
    quoted "ReactTestUtils" ]

/-- Legacy compatibility packages redirected in UMD bundles. -/
def legacyModules : List String :=
  [ "create-react-class",
    "create-react-class/factory",
    "prop-types",
    "prop-types/checkPropTypes" ]

/-! ### Module Map Builder (`createModuleMap`, lines 70-92)

The glob collaborator (`sync(path, {ignore: exclude})`) is external: it is
modelled as a function from a pattern to the matched file list (already
filtered by the exclusion patterns).  The optional error-code extraction
hook only mutates an external registry file and never affects the returned
map, so it is carried as an unused flag. -/

/-- The scan loop of `createModuleMap`: for each pattern in order, for each
matched file, bind the file's basename (`.js` stripped) to its resolved
path, later files overwriting earlier ones on basename collision. -/
def buildModuleMap (sync : String → List String) (paths : List String) : Obj :=
  paths.foldl
    (fun m path =>
      (sync path).foldl (fun m file => Obj.set m (basename file ".js") (resolve file)) m)
    []

/-- `createModuleMap(paths, extractErrors, bundleType)`: the scan loop, then
for FB bundles the `ReactCurrentOwner` and `lowPriorityWarning` keys are
deleted so they can be handled by a different case. -/
def createModuleMap (sync : String → List String) (paths : List String)
    (bundleType : String) : Obj :=
  let moduleMap := buildModuleMap sync paths
  if bundleType = FB_DEV ∨ bundleType = FB_PROD then
    Obj.delete (Obj.delete moduleMap "ReactCurrentOwner") "lowPriorityWarning"
  else
    moduleMap

/-! ### Variant-keyed alias sources (lines 94-242) -/

/-- `getNodeModules(bundleType, moduleType)`: a `switch` on the bundle type
with no default case — an unlisted bundle type falls through and the
function returns `undefined` (`none`). -/
def getNodeModules (bundleType moduleType : String) : Option Obj :=
  if bundleType = UMD_DEV ∨ bundleType = UMD_PROD then
    some
      [ ("object-assign",
          if moduleType = ISOMORPHIC then resolve "./node_modules/object-assign/index.js"
          else resolve "./scripts/rollup/shims/rollup/assign.js"),
        ("art/modes/current", resolve "./node_modules/art/modes/current.js"),
        ("art/modes/fast-noSideEffects",
          resolve "./node_modules/art/modes/fast-noSideEffects.js"),
        ("art/core/transform", resolve "./node_modules/art/core/transform.js") ]
  else if bundleType = NODE_DEV ∨ bundleType = NODE_PROD ∨ bundleType = FB_DEV ∨
      bundleType = FB_PROD ∨ bundleType = RN_DEV ∨ bundleType = RN_PROD then
    some []
  else
    none

/-- `ignoreFBModules()`: FB-specific modules never bundled. -/
def ignoreFBModules : List String :=
  ["React", "ReactDOM", "ReactFeatureFlags", "ReactCurrentOwner", "lowPriorityWarning"]

/-- `ignoreReactNativeModules()`: `View` imports `NativeMethodsMixin`,
causing a circular dependency, so it is never bundled. -/
def ignoreReactNativeModules : List String :=
  ["View"]

/-- `getExternalModules(externals, bundleType, moduleType)`: copies the
caller-supplied list and pushes variant-dependent entries onto the end.  The
`switch` has no default case: an unlisted bundle type leaves the copy
unchanged. -/
def getExternalModules (externals : List String) (bundleType moduleType : String) :
    List String :=
  let externalModules := externals
  if bundleType = UMD_DEV ∨ bundleType = UMD_PROD then
    if moduleType ≠ ISOMORPHIC then externalModules ++ ["react"] else externalModules
  else if bundleType = NODE_DEV ∨ bundleType = NODE_PROD ∨ bundleType = RN_DEV ∨
      bundleType = RN_PROD then
    let externalModules := externalModules ++ fbjsModules ++ ["object-assign"]
    if moduleType ≠ ISOMORPHIC then externalModules ++ ["react"] else externalModules
  else if bundleType = FB_DEV ∨ bundleType = FB_PROD then
    let externalModules := externalModules ++ fbjsModules ++
      ["object-assign", "ReactCurrentOwner", "lowPriorityWarning"]
    if moduleType ≠ ISOMORPHIC then
      let externalModules := externalModules ++ ["React"]
      if externalModules.contains "react-dom" then externalModules ++ ["ReactDOM"]
      else externalModules
    else externalModules
  else
    externalModules

/-- `getInternalModules(moduleType)`: always the `reactProdInvariant`
helper; renderers additionally bundle the whole reconciler. -/
def getInternalModules (moduleType : String) : Obj :=
  let aliases : Obj :=
    [("reactProdInvariant", resolve "./packages/shared/reactProdInvariant.js")]
  if moduleType = RENDERER then
    Obj.set aliases "react-reconciler" (resolve "./packages/react-reconciler/index.js")
  else
    aliases

/-- `getFbjsModuleAliases(bundleType)`: for UMD bundles every FBJS module is
re-aliased to its file under `node_modules` so Rollup bundles it; the other
listed bundle types get `{}`; an unlisted bundle type falls through to
`undefined`. -/
def getFbjsModuleAliases (bundleType : String) : Option Obj :=
  if bundleType = UMD_DEV ∨ bundleType = UMD_PROD then
    some (fbjsModules.foldl
      (fun m fbjsModule => Obj.set m fbjsModule (resolve ("./node_modules/" ++ fbjsModule)))
      [])
  else if bundleType = NODE_DEV ∨ bundleType = NODE_PROD ∨ bundleType = FB_DEV ∨
      bundleType = FB_PROD ∨ bundleType = RN_DEV ∨ bundleType = RN_PROD then
    some []
  else
    none

/-! ### Replacement Planner sources (lines 226-296) -/

/-- `replaceFbjsModuleAliases(bundleType)`: Haste at FB does not allow
case-sensitive names, so FB bundles rewrite the quoted references.  This
`switch` has a `default` returning `{}`, so the function is total. -/
def replaceFbjsModuleAliases (bundleType : String) : Obj :=
  if bundleType = FB_DEV ∨ bundleType = FB_PROD then
    [(quoted "react", quoted "React"), (quoted "react-dom", quoted "ReactDOM")]
  else
    []

/-- The quoted resolved path of the shared no-op stub module. -/
def devOnlyModuleStub : String :=
  quoted (resolve "./scripts/rollup/shims/rollup/DevOnlyStubShim.js")

/-- `replaceDevOnlyStubbedModules(bundleType)`: dev bundle types and
`RN_PROD` get `{}`; `FB_PROD`, `UMD_PROD` and `NODE_PROD` map each dev-only
file to the stub; an unlisted bundle type falls through to `undefined`. -/
def replaceDevOnlyStubbedModules (bundleType : String) : Option Obj :=
  if bundleType = UMD_DEV ∨ bundleType = NODE_DEV ∨ bundleType = FB_DEV ∨
      bundleType = RN_DEV ∨ bundleType = RN_PROD then
    some []
  else if bundleType = FB_PROD ∨ bundleType = UMD_PROD ∨ bundleType = NODE_PROD then
    some (devOnlyFilesToStubOut.foldl
      (fun m devOnlyModule => Obj.set m devOnlyModule devOnlyModuleStub) [])
  else
    none

/-- `replaceLegacyModuleAliases(bundleType)`: UMD bundles rewrite each
legacy package reference to its quoted on-disk location (bare package names
gain an `/index` suffix); the other listed bundle types get `{}`; an
unlisted bundle type falls through to `undefined`. -/
def replaceLegacyModuleAliases (bundleType : String) : Option Obj :=
  if bundleType = UMD_DEV ∨ bundleType = UMD_PROD then
    some (legacyModules.foldl
      (fun m legacyModule =>
        let modulePath :=
          if legacyModule.data.contains '/' then legacyModule
          else legacyModule ++ "/index"
        Obj.set m (quoted legacyModule) (quoted (resolve ("./node_modules/" ++ modulePath))))
      [])
  else if bundleType = NODE_DEV ∨ bundleType = NODE_PROD ∨ bundleType = FB_DEV ∨
      bundleType = FB_PROD ∨ bundleType = RN_DEV ∨ bundleType = RN_PROD then
    some []
  else
    none

/-- `replaceBundleStubModules(bundleModulesToStub)`: each caller-supplied
name, quoted, maps to the stub; guarded by `Array.isArray`, so any non-array
argument contributes nothing. -/
def replaceBundleStubModules (bundleModulesToStub : JSArg) : Obj :=
  match bundleModulesToStub with
  | .arr xs => xs.foldl (fun m module => Obj.set m (quoted module) devOnlyModuleStub) []
  | _ => []

/-- `replaceFeatureFlags(featureFlags)`: contributes nothing when the
argument is falsy (`undefined` or the empty string); otherwise rewrites the
quoted feature-flag reference to the quoted resolved path. -/
def replaceFeatureFlags (featureFlags : Option String) : Obj :=
  match featureFlags with
  | none => []
  | some f => if f = "" then [] else [(quoted "ReactFeatureFlags", quoted (resolve f))]

/-! ### The two merged entry points (lines 298-333) -/

/-- `getAliases(paths, bundleType, moduleType, extractErrors)`:
`Object.assign` of the module map, the internal-package aliases, the node
module aliases and the FBJS aliases, in that order. -/
def getAliases (sync : String → List String) (paths : List String)
    (bundleType moduleType : String) (extractErrors : Bool) : Obj :=
  Obj.assignOpt
    (Obj.assignOpt
      (Obj.assign (createModuleMap sync paths bundleType) (getInternalModules moduleType))
      (getNodeModules bundleType moduleType))
    (getFbjsModuleAliases bundleType)

/-- `getDefaultReplaceModules(bundleType, bundleModulesToStub, featureFlags)`:
`Object.assign` of the casing rewrites, the dev-only stubs, the legacy
redirects, the caller-supplied stubs and the feature-flag substitution, in
that order, onto a fresh `{}`. -/
def getDefaultReplaceModules (bundleType : String) (bundleModulesToStub : JSArg)
    (featureFlags : Option String) : Obj :=
  Obj.assign
    (Obj.assign
      (Obj.assignOpt
        (Obj.assignOpt
          (Obj.assign [] (replaceFbjsModuleAliases bundleType))
          (replaceDevOnlyStubbedModules bundleType))
        (replaceLegacyModuleAliases bundleType))
      (replaceBundleStubModules bundleModulesToStub))
    (replaceFeatureFlags featureFlags)

/-! ### Lemmas about the JS object model -/

theorem Obj.get?_set (o : Obj) (k v k' : String) :
    Obj.get? (Obj.set o k v) k' = if k = k' then some v else Obj.get? o k' := by
  induction o with
  | nil => simp [Obj.set, Obj.get?]
  | cons p rest ih =>
    obtain ⟨k0, v0⟩ := p
    by_cases h0 : k0 = k
    · subst h0
      by_cases h2 : k0 = k' <;> simp [Obj.set, Obj.get?, h2]
    · by_cases h1 : k0 = k'
      · have h2 : ¬k = k' := fun hh => h0 (h1.trans hh.symm)
        simp [Obj.set, Obj.get?, h0, h1, h2, Ne.symm h2]
      · by_cases h2 : k = k'
        · subst h2
          simp [Obj.set, Obj.get?, h0, h1, ih]
        · simp [Obj.set, Obj.get?, h0, h1, h2, ih]

theorem Obj.get?_delete (o : Obj) (k : String) :
    Obj.get? (Obj.delete o k) k = none := by
  induction o with
  | nil => rfl
  | cons p rest ih =>
    obtain ⟨k0, v0⟩ := p
    by_cases h : k0 = k <;> simp [Obj.delete, Obj.get?, h, ih]

theorem Obj.get?_delete_ne (o : Obj) (k k' : String) (h : k' ≠ k) :
    Obj.get? (Obj.delete o k) k' = Obj.get? o k' := by
  induction o with
  | nil => rfl
  | cons p rest ih =>
    obtain ⟨k0, v0⟩ := p
    by_cases h0 : k0 = k
    · have : ¬k0 = k' := fun hh => h (hh.symm.trans h0)
      simp [Obj.delete, Obj.get?, h0, this, ih, Ne.symm h]
    · by_cases h1 : k0 = k' <;> simp [Obj.delete, Obj.get?, h0, h1, ih, h]

theorem Obj.set_const_values (o : Obj) (k v : String)
    (h : ∀ p ∈ o, p.2 = v) : ∀ p ∈ Obj.set o k v, p.2 = v := by
  induction o with
  | nil =>
    intro p hp
    simp [Obj.set] at hp
    simp [hp]
  | cons q rest ih =>
    obtain ⟨k0, v0⟩ := q
    intro p hp
    by_cases h0 : k0 = k
    · simp [Obj.set, h0] at hp
      rcases hp with hp | hp
      · simp [hp]
      · exact h p (List.mem_cons_of_mem _ hp)
    · simp only [Obj.set, if_neg h0, List.mem_cons] at hp
      rcases hp with hp | hp
      · exact h p (by simp [hp])
      · exact ih (fun q hq => h q (List.mem_cons_of_mem _ hq)) p hp

theorem Obj.get?_assign_const (s : Obj) (v : String)
    (hs : ∀ p ∈ s, p.2 = v) : ∀ (t : Obj) (k : String), Obj.get? t k = some v →
    Obj.get? (Obj.assign t s) k = some v := by
  induction s with
  | nil => intro t k ht; exact ht
  | cons p s' ih =>
    intro t k ht
    have hp : p.2 = v := hs p (List.mem_cons_self _ _)
    have hs' : ∀ q ∈ s', q.2 = v := fun q hq => hs q (List.mem_cons_of_mem _ hq)
    show Obj.get? (Obj.assign (Obj.set t p.1 p.2) s') k = some v
    refine ih hs' _ _ ?_
    rw [Obj.get?_set]
    by_cases h : p.1 = k <;> simp [h, ht, hp]

theorem replaceBundleStubModules_const_values (a : JSArg) :
    ∀ p ∈ replaceBundleStubModules a, p.2 = devOnlyModuleStub := by
  cases a with
  | arr xs =>
    show ∀ p ∈ xs.foldl (fun m module => Obj.set m (quoted module) devOnlyModuleStub) [],
      p.2 = devOnlyModuleStub
    have h : ∀ (o : Obj), (∀ p ∈ o, p.2 = devOnlyModuleStub) →
        ∀ p ∈ xs.foldl (fun m module => Obj.set m (quoted module) devOnlyModuleStub) o,
          p.2 = devOnlyModuleStub := by
      induction xs with
      | nil => intro o ho; exact ho
      | cons x xs ih =>
        intro o ho
        exact ih _ (Obj.set_const_values _ _ _ ho)
    exact h [] (by simp)
  | undefined => intro p hp; exact absurd hp (List.not_mem_nil p)
  | null => intro p hp; exact absurd hp (List.not_mem_nil p)
  | num n => intro p hp; exact absurd hp (List.not_mem_nil p)
  | str s => intro p hp; exact absurd hp (List.not_mem_nil p)

/-! ### Claim theorems -/

/-- C1: for every bundle type and module type, `getExternalModules` returns
a sequence whose prefix is exactly the caller-supplied base list, unchanged
and in order; every branch only appends entries after it, and no
caller-supplied entry is removed, reordered, or modified. -/
theorem C1_externals_preserved_as_prefix (externals : List String)
    (bundleType moduleType : String) :
    externals <+: getExternalModules externals bundleType moduleType := by
  unfold getExternalModules
  repeat' split
  all_goals simp [List.append_assoc, apply_ite (fun l => externals <+: l)]

/-- C2 counterexample: the claim counts fifteen fixed third-party utility
names, but the `fbjsModules` list has sixteen entries. -/
theorem C2_counterexample : fbjsModules.length ≠ 15 := by decide

/-- C2 (amended): for the node-targeted development variant with role =
core, `getExternalModules` returns the base list followed by the sixteen
`fbjsModules` names followed by `object-assign`, in that exact order, with
no `react` appended. -/
theorem C2_amended_node_dev_core (externals : List String) :
    getExternalModules externals NODE_DEV ISOMORPHIC =
      externals ++ (fbjsModules ++ ["object-assign"]) ∧
    fbjsModules.length = 16 ∧
    "react" ∉ fbjsModules ++ ["object-assign"] := by
  refine ⟨?_, by decide, by decide⟩
  simp [getExternalModules, NODE_DEV, UMD_DEV, UMD_PROD, NODE_PROD, RN_DEV,
    RN_PROD, ISOMORPHIC]

/-- C3 counterexample: with the caller stub list holding the already-quoted
name (the claim's stated input), `replaceBundleStubModules` quotes it again,
so the planner's output has no binding for the singly-quoted key. -/
theorem C3_counterexample :
    Obj.get? (getDefaultReplaceModules UMD_PROD (.arr [quoted "ReactDebugTools"]) none)
        (quoted "ReactDebugTools") = none := by
  decide

/-- C3 (amended): for the universal-module production variant with the
feature-flag path unset and the caller stub list holding the unquoted name
`ReactDebugTools`, the planner's output contains the quoted-path redirects
for all four legacy package names, the four fixed dev-only stub entries,
and the quoted `ReactDebugTools` key mapped to the stub value, and contains
no quoted `ReactFeatureFlags` entry. -/
theorem C3_amended_umd_prod_plan :
    Obj.get? (getDefaultReplaceModules UMD_PROD (.arr ["ReactDebugTools"]) none)
        (quoted "create-react-class") =
      some (quoted (resolve "./node_modules/create-react-class/index")) ∧
    Obj.get? (getDefaultReplaceModules UMD_PROD (.arr ["ReactDebugTools"]) none)
        (quoted "create-react-class/factory") =
      some (quoted (resolve "./node_modules/create-react-class/factory")) ∧
    Obj.get? (getDefaultReplaceModules UMD_PROD (.arr ["ReactDebugTools"]) none)
        (quoted "prop-types") =
      some (quoted (resolve "./node_modules/prop-types/index")) ∧
    Obj.get? (getDefaultReplaceModules UMD_PROD (.arr ["ReactDebugTools"]) none)
        (quoted "prop-types/checkPropTypes") =
      some (quoted (resolve "./node_modules/prop-types/checkPropTypes")) ∧
    Obj.get? (getDefaultReplaceModules UMD_PROD (.arr ["ReactDebugTools"]) none)
        (quoted "ReactDebugCurrentFrame") = some devOnlyModuleStub ∧
    Obj.get? (getDefaultReplaceModules UMD_PROD (.arr ["ReactDebugTools"]) none)
        (quoted "ReactComponentTreeHook") = some devOnlyModuleStub ∧
    Obj.get? (getDefaultReplaceModules UMD_PROD (.arr ["ReactDebugTools"]) none)
        (quoted "ReactPerf") = some devOnlyModuleStub ∧
    Obj.get? (getDefaultReplaceModules UMD_PROD (.arr ["ReactDebugTools"]) none)
        (quoted "ReactTestUtils") = some devOnlyModuleStub ∧
    Obj.get? (getDefaultReplaceModules UMD_PROD (.arr ["ReactDebugTools"]) none)
        (quoted "ReactDebugTools") = some devOnlyModuleStub ∧
    Obj.get? (getDefaultReplaceModules UMD_PROD (.arr ["ReactDebugTools"]) none)
        (quoted "ReactFeatureFlags") = none := by
  decide

/-- C4 counterexample: a bundle type outside the recognized set does not
surface any configuration error; `getExternalModules` silently returns the
caller-supplied list unchanged (an incomplete policy) and the variant-keyed
sources silently fall through to `undefined`. -/
theorem C4_counterexample :
    getExternalModules ["some-external"] "NOT_A_BUNDLE_TYPE" RENDERER =
      ["some-external"] ∧
    getNodeModules "NOT_A_BUNDLE_TYPE" RENDERER = none ∧
    getFbjsModuleAliases "NOT_A_BUNDLE_TYPE" = none ∧
    replaceDevOnlyStubbedModules "NOT_A_BUNDLE_TYPE" = none ∧
    replaceLegacyModuleAliases "NOT_A_BUNDLE_TYPE" = none := by
  decide

/-- C4 (amended): for every bundle type outside the recognized set, the
variant-branching policy functions silently fall through: the external
classifier returns the caller list unchanged and each variant-keyed source
returns `undefined` (or `{}` for the one `switch` with a `default`), so an
incomplete policy is produced with no error surfaced. -/
theorem C4_amended (bundleType : String) (h : bundleType ∉ allBundleTypes)
    (externals : List String) (moduleType : String) :
    getExternalModules externals bundleType moduleType = externals ∧
    getNodeModules bundleType moduleType = none ∧
    getFbjsModuleAliases bundleType = none ∧
    replaceDevOnlyStubbedModules bundleType = none ∧
    replaceLegacyModuleAliases bundleType = none ∧
    replaceFbjsModuleAliases bundleType = [] := by
  simp only [allBundleTypes, List.mem_cons, List.not_mem_nil, or_false,
    not_or] at h
  obtain ⟨h1, h2, h3, h4, h5, h6, h7, h8⟩ := h
  simp [getExternalModules, getNodeModules, getFbjsModuleAliases,
    replaceDevOnlyStubbedModules, replaceLegacyModuleAliases,
    replaceFbjsModuleAliases, h1, h2, h3, h4, h5, h6, h7, h8]

/-- C4 witness: the amended claim at the concrete unrecognized bundle type
`NOT_A_BUNDLE_TYPE`. -/
theorem C4_amended_witness :
    getExternalModules ["x"] "NOT_A_BUNDLE_TYPE" RENDERER = ["x"] ∧
    getNodeModules "NOT_A_BUNDLE_TYPE" RENDERER = none ∧
    getFbjsModuleAliases "NOT_A_BUNDLE_TYPE" = none ∧
    replaceDevOnlyStubbedModules "NOT_A_BUNDLE_TYPE" = none ∧
    replaceLegacyModuleAliases "NOT_A_BUNDLE_TYPE" = none ∧
    replaceFbjsModuleAliases "NOT_A_BUNDLE_TYPE" = [] :=
  C4_amended "NOT_A_BUNDLE_TYPE" (by decide) ["x"] RENDERER

/-- The last two merge steps of `getDefaultReplaceModules` preserve a
binding to the stub value: the caller-supplied stub source only writes the
stub value, and the feature-flag source only writes the
`'ReactFeatureFlags'` key. -/
theorem plan_keeps_stub_binding (T : Obj) (stubArg : JSArg) (featureFlags : Option String)
    (name : String) (hT : Obj.get? T name = some devOnlyModuleStub)
    (hff : name ≠ quoted "ReactFeatureFlags") :
    Obj.get?
      (Obj.assign (Obj.assign T (replaceBundleStubModules stubArg))
        (replaceFeatureFlags featureFlags)) name = some devOnlyModuleStub := by
  have h1 : Obj.get? (Obj.assign T (replaceBundleStubModules stubArg)) name =
      some devOnlyModuleStub :=
    Obj.get?_assign_const _ _ (replaceBundleStubModules_const_values stubArg) _ _ hT
  cases featureFlags with
  | none => exact h1
  | some f =>
    by_cases hf : f = ""
    · simpa [replaceFeatureFlags, hf, Obj.assign] using h1
    · simpa [replaceFeatureFlags, hf, Obj.assign, Obj.get?_set, Ne.symm hff] using h1

/-- The value of `getNodeModules` on the UMD branch, as a list literal. -/
def umdNodeModulesObj (moduleType : String) : Obj :=
  [ ("object-assign",
      if moduleType = ISOMORPHIC then resolve "./node_modules/object-assign/index.js"
      else resolve "./scripts/rollup/shims/rollup/assign.js"),
    ("art/modes/current", resolve "./node_modules/art/modes/current.js"),
    ("art/modes/fast-noSideEffects",
      resolve "./node_modules/art/modes/fast-noSideEffects.js"),
    ("art/core/transform", resolve "./node_modules/art/core/transform.js") ]

/-- The value of `getFbjsModuleAliases` on the UMD branch, as a mapped
list. -/
def fbjsAliasObj : Obj :=
  fbjsModules.map (fun m => (m, resolve ("./node_modules/" ++ m)))

/-- Merging an object none of whose keys is `k` does not change the lookup
of `k`. -/
theorem Obj.get?_assign_not_key (t s : Obj) (k : String)
    (hs : ∀ p ∈ s, p.1 ≠ k) :
    Obj.get? (Obj.assign t s) k = Obj.get? t k := by
  induction s generalizing t with
  | nil => rfl
  | cons p s' ih =>
    have hp : p.1 ≠ k := hs p (List.mem_cons_self _ _)
    have hs' : ∀ q ∈ s', q.1 ≠ k := fun q hq => hs q (List.mem_cons_of_mem _ hq)
    show Obj.get? (Obj.assign (Obj.set t p.1 p.2) s') k = Obj.get? t k
    rw [ih _ hs', Obj.get?_set, if_neg hp]

/-- For the UMD bundle types the alias resolver's `object-assign` entry is
the `getNodeModules` one: the FBJS aliases merged after it touch no such
key, and it overrides anything the module map produced. -/
theorem getAliases_umd_object_assign (sync : String → List String)
    (paths : List String) (ee : Bool) (bt mt : String)
    (hbt : bt = UMD_DEV ∨ bt = UMD_PROD) :
    Obj.get? (getAliases sync paths bt mt ee) "object-assign" =
      some (if mt = ISOMORPHIC then resolve "./node_modules/object-assign/index.js"
            else resolve "./scripts/rollup/shims/rollup/assign.js") := by
  have hfb : ∀ p ∈ fbjsAliasObj, p.1 ≠ "object-assign" := by decide
  have hN : getNodeModules bt mt = some (umdNodeModulesObj mt) := by
    rcases hbt with h | h <;> subst h <;> rfl
  have hF : getFbjsModuleAliases bt = some fbjsAliasObj := by
    rcases hbt with h | h <;> subst h <;> decide
  unfold getAliases
  rw [hN, hF]
  simp only [Obj.assignOpt]
  rw [Obj.get?_assign_not_key _ fbjsAliasObj _ hfb]
  simp [umdNodeModulesObj, Obj.assign, Obj.get?_set]

/-- C5: for the universal-module variant, the alias resolver maps
`object-assign` to the real implementation when role = core (ISOMORPHIC)
and to the no-op shim when role = renderer, whatever the scanned module map
holds, and the two paths are never equal. -/
theorem C5_umd_object_assign (sync : String → List String) (paths : List String)
    (extractErrors : Bool) (bundleType : String)
    (h : bundleType = UMD_DEV ∨ bundleType = UMD_PROD) :
    Obj.get? (getAliases sync paths bundleType ISOMORPHIC extractErrors)
        "object-assign" = some (resolve "./node_modules/object-assign/index.js") ∧
    Obj.get? (getAliases sync paths bundleType RENDERER extractErrors)
        "object-assign" = some (resolve "./scripts/rollup/shims/rollup/assign.js") ∧
    resolve "./node_modules/object-assign/index.js" ≠
      resolve "./scripts/rollup/shims/rollup/assign.js" := by
  refine ⟨?_, ?_, by decide⟩
  · rw [getAliases_umd_object_assign sync paths extractErrors bundleType ISOMORPHIC h]
    simp
  · rw [getAliases_umd_object_assign sync paths extractErrors bundleType RENDERER h]
    simp [RENDERER, ISOMORPHIC]

/-- C5 witness: the universal-module development bundle type, with an empty
scan. -/
theorem C5_witness :
    Obj.get? (getAliases (fun _ => []) [] UMD_DEV ISOMORPHIC false)
        "object-assign" = some (resolve "./node_modules/object-assign/index.js") ∧
    Obj.get? (getAliases (fun _ => []) [] UMD_DEV RENDERER false)
        "object-assign" = some (resolve "./scripts/rollup/shims/rollup/assign.js") ∧
    resolve "./node_modules/object-assign/index.js" ≠
      resolve "./scripts/rollup/shims/rollup/assign.js" :=
  C5_umd_object_assign (fun _ => []) [] false UMD_DEV (Or.inl rfl)

/-- C6: for every production bundle type except RN_PROD, the replacement
planner's output maps each of the four fixed dev-only names to the single
stub value, whatever the caller-supplied stub list and feature-flag path;
for every development bundle type and for RN_PROD, the dev-only stub source
contributes no entries. -/
theorem C6_dev_only_stubs (bundleType : String) (stubArg : JSArg)
    (featureFlags : Option String) :
    ((bundleType = UMD_PROD ∨ bundleType = NODE_PROD ∨ bundleType = FB_PROD) →
      ∀ name ∈ devOnlyFilesToStubOut,
        Obj.get? (getDefaultReplaceModules bundleType stubArg featureFlags) name =
          some devOnlyModuleStub) ∧
    ((bundleType = UMD_DEV ∨ bundleType = NODE_DEV ∨ bundleType = FB_DEV ∨
        bundleType = RN_DEV ∨ bundleType = RN_PROD) →
      replaceDevOnlyStubbedModules bundleType = some []) := by
  constructor
  · rintro (h | h | h) name hname <;> subst h <;>
      simp only [devOnlyFilesToStubOut, List.mem_cons, List.not_mem_nil,
        or_false] at hname <;>
      rcases hname with h | h | h | h <;> subst h <;>
      exact plan_keeps_stub_binding _ _ _ _ (by decide) (by decide)
  · rintro (h | h | h | h | h) <;> subst h <;> rfl

/-- C6 witness: a production bundle type for the first part and RN_PROD for
the second. -/
theorem C6_witness :
    Obj.get? (getDefaultReplaceModules NODE_PROD (.arr []) none)
      (quoted "ReactPerf") = some devOnlyModuleStub ∧
    replaceDevOnlyStubbedModules RN_PROD = some [] :=
  ⟨(C6_dev_only_stubs NODE_PROD (.arr []) none).1 (Or.inr (Or.inl rfl)) _ (by decide),
   (C6_dev_only_stubs RN_PROD (.arr []) none).2 (Or.inr (Or.inr (Or.inr (Or.inr rfl))))⟩

/-- C7: for the internal-platform bundle types, the module map builder's
output never binds `ReactCurrentOwner` or `lowPriorityWarning`, even when
the scan produced files with those basenames; for every other bundle type
the map is exactly the raw scan result, with no deletion. -/
theorem C7_fb_reserved_names (sync : String → List String) (paths : List String)
    (bundleType : String) :
    ((bundleType = FB_DEV ∨ bundleType = FB_PROD) →
      Obj.get? (createModuleMap sync paths bundleType) "ReactCurrentOwner" = none ∧
      Obj.get? (createModuleMap sync paths bundleType) "lowPriorityWarning" = none) ∧
    (¬(bundleType = FB_DEV ∨ bundleType = FB_PROD) →
      createModuleMap sync paths bundleType = buildModuleMap sync paths) := by
  constructor
  · intro h
    simp only [createModuleMap, if_pos h]
    constructor
    · rw [Obj.get?_delete_ne _ _ _ (by decide)]
      exact Obj.get?_delete _ _
    · exact Obj.get?_delete _ _
  · intro h
    simp only [createModuleMap, if_neg h]

/-- C7 witness: a scan that produces both reserved basenames, under FB_DEV
and under NODE_DEV. -/
theorem C7_witness :
    (Obj.get?
        (createModuleMap
          (fun _ => ["packages/ReactCurrentOwner.js", "packages/lowPriorityWarning.js"])
          ["packages"] FB_DEV) "ReactCurrentOwner" = none ∧
      Obj.get?
        (createModuleMap
          (fun _ => ["packages/ReactCurrentOwner.js", "packages/lowPriorityWarning.js"])
          ["packages"] FB_DEV) "lowPriorityWarning" = none) ∧
    createModuleMap
        (fun _ => ["packages/ReactCurrentOwner.js", "packages/lowPriorityWarning.js"])
        ["packages"] NODE_DEV =
      buildModuleMap
        (fun _ => ["packages/ReactCurrentOwner.js", "packages/lowPriorityWarning.js"])
        ["packages"] :=
  ⟨(C7_fb_reserved_names
      (fun _ => ["packages/ReactCurrentOwner.js", "packages/lowPriorityWarning.js"])
      ["packages"] FB_DEV).1 (Or.inl rfl),
   (C7_fb_reserved_names
      (fun _ => ["packages/ReactCurrentOwner.js", "packages/lowPriorityWarning.js"])
      ["packages"] NODE_DEV).2 (by decide)⟩

/-- Modelled from the spec (section 4.3, source b): a fixed internal-package
alias table — always the shared invariant-message helper, plus the full
reconciler package exactly when role = renderer. -/
def specInternalPackageAliases (role : String) : Obj :=
  [("reactProdInvariant", resolve "./packages/shared/reactProdInvariant.js")] ++
    (if role = RENDERER then
      [("react-reconciler", resolve "./packages/react-reconciler/index.js")]
    else [])

/-- Modelled from the spec (section 4.3, source c): variant-specific
vendored-dependency aliases — only for the universal-module variant, an
object-copy polyfill whose target differs by role (the real implementation
for core, a no-op shim for renderer) plus three fixed graphics-library
submodule paths; all other variants contribute nothing. -/
def specVendoredDependencyAliases (variant role : String) : Obj :=
  if variant = UMD_DEV ∨ variant = UMD_PROD then
    [ ("object-assign",
        if role = ISOMORPHIC then resolve "./node_modules/object-assign/index.js"
        else resolve "./scripts/rollup/shims/rollup/assign.js"),
      ("art/modes/current", resolve "./node_modules/art/modes/current.js"),
      ("art/modes/fast-noSideEffects",
        resolve "./node_modules/art/modes/fast-noSideEffects.js"),
      ("art/core/transform", resolve "./node_modules/art/core/transform.js") ]
  else []

/-- Modelled from the spec (section 4.3, source d): variant-specific
third-party-module aliases — only for the universal-module variant, every
name in the fixed utility list resolved to its on-disk path; all other
variants contribute nothing. -/
def specThirdPartyModuleAliases (variant : String) : Obj :=
  if variant = UMD_DEV ∨ variant = UMD_PROD then fbjsAliasObj else []

/-- C8: for every recognized bundle type and declared role, the alias
resolver equals the later-wins merge, in order, of (a) the module map
builder's table, (b) the internal-package aliases (reconciler entry exactly
when role = renderer), (c) the variant-specific vendored-dependency
aliases, and (d) the variant-specific third-party-module aliases. -/
theorem C8_alias_resolver_merge (sync : String → List String) (paths : List String)
    (ee : Bool) (bt mt : String) (hbt : bt ∈ allBundleTypes)
    (hmt : mt = ISOMORPHIC ∨ mt = RENDERER) :
    getAliases sync paths bt mt ee =
      Obj.assign
        (Obj.assign
          (Obj.assign (createModuleMap sync paths bt) (specInternalPackageAliases mt))
          (specVendoredDependencyAliases bt mt))
        (specThirdPartyModuleAliases bt) := by
  simp only [allBundleTypes, List.mem_cons, List.not_mem_nil, or_false] at hbt
  rcases hmt with h | h <;> subst h <;>
    rcases hbt with h | h | h | h | h | h | h | h <;> subst h <;> rfl

/-- C8 witness: the universal-module development bundle type with role =
renderer and an empty scan. -/
theorem C8_witness :
    getAliases (fun _ => []) [] UMD_DEV RENDERER false =
      Obj.assign
        (Obj.assign
          (Obj.assign (createModuleMap (fun _ => []) [] UMD_DEV)
            (specInternalPackageAliases RENDERER))
          (specVendoredDependencyAliases UMD_DEV RENDERER))
        (specThirdPartyModuleAliases UMD_DEV) :=
  C8_alias_resolver_merge (fun _ => []) [] false UMD_DEV RENDERER (by decide)
    (Or.inr rfl)

/-- C9 counterexample: the two ignored-module queries return six names in
total, not two. -/
theorem C9_counterexample :
    (ignoreFBModules ++ ignoreReactNativeModules).length ≠ 2 := by decide

/-- C9 (amended): the ignored-module queries are separate from the external
classifier and independent of the variant: the mobile-platform query
returns exactly the one view-binding name `View`, the internal-platform
query returns five platform-reserved names, and the external classifier
never appends `View`. -/
theorem C9_amended (bundleType moduleType : String) :
    ignoreReactNativeModules = ["View"] ∧
    ignoreFBModules =
      ["React", "ReactDOM", "ReactFeatureFlags", "ReactCurrentOwner",
        "lowPriorityWarning"] ∧
    "View" ∉ getExternalModules [] bundleType moduleType := by
  refine ⟨rfl, rfl, ?_⟩
  unfold getExternalModules
  repeat' split
  all_goals decide

/-- C10: when the caller-supplied stub list is not an array, the stub
source contributes no entries and the replacement planner still returns the
same complete table it builds from the other sources; no failure is
possible. -/
theorem C10_non_array_stub_list (a : JSArg) (h : a.isArray = false)
    (bundleType : String) (featureFlags : Option String) :
    replaceBundleStubModules a = [] ∧
    getDefaultReplaceModules bundleType a featureFlags =
      getDefaultReplaceModules bundleType (JSArg.arr []) featureFlags := by
  cases a with
  | arr xs => simp [JSArg.isArray] at h
  | undefined => exact ⟨rfl, rfl⟩
  | null => exact ⟨rfl, rfl⟩
  | num n => exact ⟨rfl, rfl⟩
  | str s => exact ⟨rfl, rfl⟩

/-- C10 witness: the planner at a `null` stub list. -/
theorem C10_witness :
    replaceBundleStubModules JSArg.null = [] ∧
    getDefaultReplaceModules NODE_DEV JSArg.null none =
      getDefaultReplaceModules NODE_DEV (JSArg.arr []) none :=
  C10_non_array_stub_list JSArg.null rfl NODE_DEV none

end RollupModules
